import Mathlib

/-!
Verification development for the `lf-game-theory` analysis scripts
(`src/analysis/descriptive.py`, `src/analysis/inference.py`,
`src/analysis/visualize.py`).

The Python code is a single-pass batch transform over an in-memory table of
decision records.  We embed it shallowly:

* a pandas row becomes a `Record`; a data frame becomes a `List Record`;
* machine floats become exact rationals `ℚ`; a float NaN (produced by a
  failed regex extraction and propagated/skipped by pandas) is modelled as
  `none` in `Option ℚ`;
* `Series.str.extract(r'pat_(\d+)')` (Python `re.search` semantics) is
  modelled by `searchExtract` on the character list of the action string;
* the scipy statistics that are exact rational functions of their input
  (Kruskal-Wallis H, Mann-Whitney U, rank computations) are embedded in
  exact arithmetic; p-values that require transcendental distribution
  functions are external library output and are modelled as `none`
  ("externally computed") except where the code itself supplies an exact
  sentinel value.
-/

/-! ### Generic list helpers (sorting, cumulative sums, means) -/

/-- Insert into an ascending list, keeping it sorted (model of Python sorting). -/
def insertAsc {α : Type} [LinearOrder α] (x : α) : List α → List α
  | [] => [x]
  | y :: ys => if x ≤ y then x :: y :: ys else y :: insertAsc x ys

/-- Insertion sort, ascending: models Python `sorted` / numpy `sorted` and the
ascending key order of `DataFrame.groupby`. -/
def sortAsc {α : Type} [LinearOrder α] : List α → List α
  | [] => []
  | x :: xs => insertAsc x (sortAsc xs)

/-- Model of `np.cumsum`: the list of sums of the prefixes of length `1..n`. -/
def cumsum (l : List ℚ) : List ℚ :=
  (List.range l.length).map (fun i => (l.take (i + 1)).sum)

/-- Mean of a rational list (pandas `Series.mean` on a nonempty NaN-free series). -/
def qmean (l : List ℚ) : ℚ := l.sum / (l.length : ℚ)

/-- pandas `Series.mean` with `skipna`: `none` (NaN) when no values remain. -/
def meanOpt (l : List ℚ) : Option ℚ :=
  if l.length = 0 then none else some (qmean l)

/-- pandas `Series.median`: midpoint of the sorted values (`none` when empty). -/
def medianOpt (l : List ℚ) : Option ℚ :=
  let s := sortAsc l
  let n := s.length
  if n = 0 then none
  else if n % 2 = 1 then some (s.getD (n / 2) 0)
  else some ((s.getD (n / 2 - 1) 0 + s.getD (n / 2) 0) / 2)

/-- `scipy.stats.rankdata` (method `average`), as the rank of one value `v`
inside the pooled list `all`: (number of smaller values) + (ties + 1)/2. -/
def rankOf (all : List ℚ) (v : ℚ) : ℚ :=
  ((all.filter (fun x => x < v)).length : ℚ) +
    (((all.filter (fun x => x = v)).length : ℚ) + 1) / 2

/-- Collapse a list of possibly-NaN floats: `none` iff some entry is NaN. -/
def allSome : List (Option ℚ) → Option (List ℚ)
  | [] => some []
  | none :: _ => none
  | some x :: rest => (allSome rest).map (fun l => x :: l)

/-- `allSome` across a list of groups. -/
def allSomeGroups : List (List (Option ℚ)) → Option (List (List ℚ))
  | [] => some []
  | g :: gs =>
    match allSome g, allSomeGroups gs with
    | some g', some gs' => some (g' :: gs')
    | _, _ => none

/-! ### Decoding action strings (`Series.str.extract(r'pat_(\d+)')`) -/

/-- Decimal value of a digit run (the regex group `(\d+)` cast to a number;
the parse is exact on the matched digit run). -/
def natOfDigits (cs : List Char) : ℕ :=
  cs.foldl (fun a c => 10 * a + (c.toNat - 48)) 0

/-- `re.search(pat + r'(\d+)', s)` and extraction of the group: scan for the
first position where `pat` is followed by at least one digit, and return the
value of the maximal digit run there; `none` models the NaN produced by
`Series.str.extract` on a non-matching string. -/
def searchExtract (pat : List Char) : List Char → Option ℕ
  | [] => none
  | c :: rest =>
    if pat.isPrefixOf (c :: rest)
        && !(((c :: rest).drop pat.length).takeWhile Char.isDigit).isEmpty then
      some (natOfDigits (((c :: rest).drop pat.length).takeWhile Char.isDigit))
    else searchExtract pat rest

/-- Python `str.startswith`. -/
def strStartsWith (s pat : String) : Bool := pat.data.isPrefixOf s.data

/-! ### The data model (one CSV row of the decisions export) -/

/-- One decision record: a row of the experiment CSV (`DecisionRecord`). -/
structure Record where
  session_id : String := ""
  agent_id : String := ""
  model_provider : String := ""
  game_type : String := ""
  knowledge_level : String := ""
  stake : ℚ := 0
  round : ℕ := 0
  total_rounds : ℕ := 0
  action : String := ""
  payoff : ℚ := 0
deriving DecidableEq

/-! ### descriptive.py -/

/-- descriptive.py:37 — the proposer-row filter of `ultimatum_offers`. -/
def isProposerAction (a : String) : Bool := strStartsWith a "offer_"

/-- descriptive.py:38-39 — per-row `offer_pct` column of `ultimatum_offers`:
`offer_amount / (10 * stake)`; `none` models the NaN of a failed extraction. -/
def offer_pct (r : Record) : Option ℚ :=
  (searchExtract "offer_".data r.action.data).map (fun n => (n : ℚ) / (10 * r.stake))

/-- descriptive.py:97-98 — per-row `giving_pct` column of `dictator_stats`
(and the identical inference.py:51-52 / 100-101 `outcome` column). -/
def giving_pct (r : Record) : Option ℚ :=
  (searchExtract "give_".data r.action.data).map (fun n => (n : ℚ) / (10 * r.stake))

/-- descriptive.py:95-96 — the dictator frame after the game-type filter and
the `action.str.startswith('give_')` filter. -/
def dictatorRecords (df : List Record) : List Record :=
  (df.filter (fun r => r.game_type = "dictator")).filter
    (fun r => strStartsWith r.action "give_")

/-- The `groupby(['model_provider', 'knowledge_level', 'stake'])` key. -/
def keyOf (r : Record) : String × String × ℚ :=
  (r.model_provider, r.knowledge_level, r.stake)

/-- The distinct group keys of the dictator frame.  (pandas emits groups in
sorted key order; the order of rows is irrelevant to every property below.) -/
def dictatorKeys (df : List Record) : List (String × String × ℚ) :=
  ((dictatorRecords df).map keyOf).dedup

/-- One output row of `dictator_stats` (descriptive.py:100-104). -/
structure DGRow where
  model_provider : String
  knowledge_level : String
  stake : ℚ
  mean_giving_pct : Option ℚ
  median_giving_pct : Option ℚ
  n : ℕ
deriving DecidableEq

/-- descriptive.py:93-106 — `dictator_stats`: group the filtered dictator
frame by condition and aggregate `giving_pct` (pandas `mean`/`median`/`count`
all skip NaN, hence the `filterMap`). -/
def dictator_stats (df : List Record) : List DGRow :=
  (dictatorKeys df).map (fun key =>
    let vals := ((dictatorRecords df).filter (fun r => keyOf r = key)).filterMap giving_pct
    { model_provider := key.1
      knowledge_level := key.2.1
      stake := key.2.2
      mean_giving_pct := meanOpt vals
      median_giving_pct := medianOpt vals
      n := vals.length })

/-! ### inference.py — outcome of one test call

A Python dict `{'error': msg}` returned from a test is a structured error
result; an uncaught exception aborts the caller.  We keep the two apart. -/

/-- Outcome of one statistical-test call. -/
inductive TestOutcome (α : Type) where
  | ok (a : α)
  | errorResult (msg : String)
  | raised (msg : String)
deriving DecidableEq

/-! ### inference.py — `stake_effect_test` -/

/-- inference.py:44-52 — the per-row `outcome` column of `stake_effect_test`
(the final `none` is unreachable: unsupported game types return the error
dict before any outcome is computed). -/
def outcomeSE (gt : String) (r : Record) : Option ℚ :=
  if gt = "prisoners-dilemma" then some (if r.action = "cooperate" then 1 else 0)
  else if gt = "public-goods" then
    (searchExtract "contribute_".data r.action.data).map (fun n => (n : ℚ) / (10 * r.stake))
  else if gt = "dictator" then
    (searchExtract "give_".data r.action.data).map (fun n => (n : ℚ) / (10 * r.stake))
  else none

/-- inference.py:42, 50 — the frame `stake_effect_test` groups: the game-type
filter, plus (for the dictator game only) the `give_` row filter. -/
def seRecords (df : List Record) (gt : String) : List Record :=
  let g := df.filter (fun r => r.game_type = gt)
  if gt = "dictator" then g.filter (fun r => strStartsWith r.action "give_") else g

/-- The distinct stake levels of the grouped frame, ascending
(`groupby('stake')` emits keys in sorted order). -/
def stakeLevels (df : List Record) (gt : String) : List ℚ :=
  sortAsc (((seRecords df gt).map (fun r => r.stake)).dedup)

/-- inference.py:56 — `groups`: the `outcome` values of each stake group. -/
def stakeGroupVals (df : List Record) (gt : String) : List (List (Option ℚ)) :=
  (stakeLevels df gt).map (fun s =>
    ((seRecords df gt).filter (fun r => r.stake = s)).map (outcomeSE gt))

/-- `scipy.stats.kruskal` statistic, in exact rational arithmetic: average
ranks over the pooled sample, H = 12/(N(N+1)) * sum of R_i^2/n_i - 3(N+1),
divided by the tie correction 1 - sum(t^3 - t)/(N^3 - N); scipy raises
`ValueError` when the tie correction is zero (all values identical).
(The chi-square p-value is distribution-function output, not modelled.) -/
def kruskalStat (gs : List (List ℚ)) : Except String ℚ :=
  let all := gs.flatten
  let N : ℚ := (all.length : ℚ)
  let ssbn : ℚ := (gs.map (fun g => ((g.map (rankOf all)).sum) ^ 2 / (g.length : ℚ))).sum
  let hraw : ℚ := 12 / (N * (N + 1)) * ssbn - 3 * (N + 1)
  let tie : ℚ :=
    1 - ((all.dedup.map (fun v =>
      (((all.filter (fun x => x = v)).length : ℚ)) ^ 3 -
        ((all.filter (fun x => x = v)).length : ℚ))).sum) / (N ^ 3 - N)
  if tie = 0 then Except.error "All numbers are identical in kruskal"
  else Except.ok (hraw / tie)

/-- The numeric payload of a successful `stake_effect_test` (inference.py:84-89):
the Kruskal-Wallis statistic and the eta-squared effect size.  `none` models a
non-finite float (NaN from an unparseable action propagated by scipy, or the
inf/NaN of a zero denominator).  The pairwise Mann-Whitney list and the
chi-square p-value are library output untouched by any property below. -/
structure StakeResult where
  h : Option ℚ
  eta_squared : Option ℚ
deriving DecidableEq

/-- inference.py:40-89 — `stake_effect_test`. -/
def stake_effect_test (df : List Record) (gt : String) : TestOutcome StakeResult :=
  if gt = "prisoners-dilemma" ∨ gt = "public-goods" ∨ gt = "dictator" then
    let groups := stakeGroupVals df gt
    if groups.length < 2 then TestOutcome.errorResult "Need at least 2 stake levels"
    else
      match allSomeGroups groups with
      | none => TestOutcome.ok { h := none, eta_squared := none }
      | some gs =>
        match kruskalStat gs with
        | Except.error e => TestOutcome.raised e
        | Except.ok hstat =>
          let k : ℚ := (groups.length : ℚ)
          let N : ℚ := ((groups.map List.length).sum : ℚ)
          TestOutcome.ok
            { h := some hstat
              eta_squared :=
                if N - k = 0 then none else some ((hstat - k + 1) / (N - k)) }
  else TestOutcome.errorResult ("Unsupported game type for stake analysis: " ++ gt)

/-! ### inference.py — `model_comparison_test` -/

/-- inference.py:96-103 — the per-row `outcome` column of
`model_comparison_test`: cooperation indicator for the prisoners dilemma,
decoded giving fraction for the dictator game, and the raw `payoff` column
for every other game type. -/
def outcomeMC (gt : String) (r : Record) : Option ℚ :=
  if gt = "prisoners-dilemma" then some (if r.action = "cooperate" then 1 else 0)
  else if gt = "dictator" then
    (searchExtract "give_".data r.action.data).map (fun n => (n : ℚ) / (10 * r.stake))
  else some r.payoff

/-- inference.py:94, 99 — the frame `model_comparison_test` works on. -/
def mcRecords (df : List Record) (gt : String) : List Record :=
  let g := df.filter (fun r => r.game_type = gt)
  if gt = "dictator" then g.filter (fun r => strStartsWith r.action "give_") else g

/-- inference.py:105-106 — the outcome series of one provider. -/
def providerVals (df : List Record) (gt prov : String) : List (Option ℚ) :=
  ((mcRecords df gt).filter (fun r => r.model_provider = prov)).map (outcomeMC gt)

/-- pandas `Series.std() ** 2` (ddof = 1, skipna): the sample variance of the
non-NaN values; `none` (NaN) with fewer than two values. -/
def sampleVar (l : List ℚ) : Option ℚ :=
  if l.length ≤ 1 then none
  else some ((l.map (fun x => (x - qmean l) ^ 2)).sum / ((l.length : ℚ) - 1))

/-- inference.py:114 — the square of the pooled standard deviation,
`(claude_data.std()**2 + openai_data.std()**2) / 2` (NaN-propagating). -/
def pooled_var (df : List Record) (gt : String) : Option ℚ :=
  match sampleVar ((providerVals df gt "claude").filterMap id),
        sampleVar ((providerVals df gt "openai").filterMap id) with
  | some v1, some v2 => some ((v1 + v2) / 2)
  | _, _ => none

/-- `scipy.stats.mannwhitneyu` statistic (U1 = R1 - n1(n1+1)/2 over pooled
average ranks); NaN in either sample propagates to a NaN statistic.
(The p-value is distribution-function output, not modelled.) -/
def mannWhitneyU (xs ys : List (Option ℚ)) : Option ℚ :=
  match allSome xs, allSome ys with
  | some x, some y =>
    some ((x.map (rankOf (x ++ y))).sum - (x.length : ℚ) * ((x.length : ℚ) + 1) / 2)
  | _, _ => none

/-- inference.py:115 — the reported Cohen's d: the literal `0` of the
degenerate branch, or the real number delta / sqrt v (v > 0) of the division
branch, kept symbolic because a square root is not rational. -/
inductive DVal where
  | zero
  | val (delta v : ℚ)
deriving DecidableEq

/-- The dict returned by a successful `model_comparison_test`
(inference.py:117-127); the Mann-Whitney p-value and the significance flag
derived from it are distribution-function output, not modelled. -/
structure MCResult where
  claude_mean : Option ℚ
  openai_mean : Option ℚ
  claude_n : ℕ
  openai_n : ℕ
  u_stat : Option ℚ
  cohens_d : DVal
deriving DecidableEq

/-- inference.py:92-127 — `model_comparison_test`.  `pooled_std > 0` holds in
Python exactly when the pooled variance is a finite positive float (a NaN
comparison is false), hence the match on `pooled_var`. -/
def model_comparison_test (df : List Record) (gt : String) : TestOutcome MCResult :=
  let cd := providerVals df gt "claude"
  let od := providerVals df gt "openai"
  if cd.length = 0 ∨ od.length = 0 then TestOutcome.errorResult "Need data from both models"
  else
    let cvals := cd.filterMap id
    let ovals := od.filterMap id
    TestOutcome.ok
      { claude_mean := meanOpt cvals
        openai_mean := meanOpt ovals
        claude_n := cd.length
        openai_n := od.length
        u_stat := mannWhitneyU cd od
        cohens_d :=
          match pooled_var df gt with
          | some v => if 0 < v then DVal.val (qmean cvals - qmean ovals) v else DVal.zero
          | none => DVal.zero }

/-! ### inference.py — `learning_analysis` -/

/-- inference.py:155 — the iterated prisoners-dilemma frame. -/
def pdIterated (df : List Record) : List Record :=
  df.filter (fun r => r.game_type = "prisoners-dilemma" ∧ 1 < r.total_rounds)

/-- One row of `round_rates` (inference.py:158-161). -/
structure RoundRow where
  round : ℕ
  cooperation_rate : ℚ
  n : ℕ
deriving DecidableEq

/-- inference.py:158-161 — per-round cooperation rate and count, one row per
distinct round, ascending (`groupby('round')` sorts its keys). -/
def roundRates (df : List Record) : List RoundRow :=
  (sortAsc (((pdIterated df).map (fun r => r.round)).dedup)).map (fun rd =>
    let grp := (pdIterated df).filter (fun r => r.round = rd)
    { round := rd
      cooperation_rate := ((grp.filter (fun r => r.action = "cooperate")).length : ℚ) / (grp.length : ℚ)
      n := grp.length })

/-- The Spearman rho reported by `learning_analysis`: a plain rational (the
sentinel `0`), the symbolic c / sqrt (a * b) of a computed correlation with
a, b > 0, or NaN (scipy returns NaN when an input series is constant). -/
inductive RhoVal where
  | q (v : ℚ)
  | sqrtQuot (c a b : ℚ)
  | nan
deriving DecidableEq

/-- `scipy.stats.spearmanr`: Pearson correlation of the average ranks,
c / sqrt (a * b) with c the centered rank cross product and a, b the centered
rank square sums; NaN when either series has zero rank variance. -/
def spearmanRho (xs ys : List ℚ) : RhoVal :=
  let rx := xs.map (rankOf xs)
  let ry := ys.map (rankOf ys)
  let n : ℚ := (xs.length : ℚ)
  let mx := rx.sum / n
  let my := ry.sum / n
  let c := ((rx.zip ry).map (fun p => (p.1 - mx) * (p.2 - my))).sum
  let a := (rx.map (fun t => (t - mx) ^ 2)).sum
  let b := (ry.map (fun t => (t - my) ^ 2)).sum
  if a = 0 ∨ b = 0 then RhoVal.nan else RhoVal.sqrtQuot c a b

/-- Python `rho > 0` on the reported value: the sign of c / sqrt (a * b) is
the sign of c (`sqrtQuot` is only built with a, b > 0), and a NaN comparison
is false. -/
def rhoPos : RhoVal → Bool
  | RhoVal.q v => 0 < v
  | RhoVal.sqrtQuot c _ _ => 0 < c
  | RhoVal.nan => false

/-- The `trend` dict of `learning_analysis` (inference.py:171).  `p = some x`
is the exact sentinel value; `p = none` is the externally computed
t-distribution p-value of scipy's spearmanr. -/
structure Trend where
  rho : RhoVal
  p : Option ℚ
  direction : String
deriving DecidableEq

/-- The dict returned by `learning_analysis` (inference.py:169-172). -/
structure LearningResult where
  round_rates : List RoundRow
  trend : Trend
deriving DecidableEq

/-- inference.py:153-172 — `learning_analysis`. -/
def learning_analysis (df : List Record) : LearningResult :=
  let rr := roundRates df
  let rp : RhoVal × Option ℚ :=
    if 2 < rr.length then
      (spearmanRho (rr.map (fun t => (t.round : ℚ))) (rr.map (fun t => t.cooperation_rate)), none)
    else (RhoVal.q 0, some 1)
  { round_rates := rr
    trend := { rho := rp.1
               p := rp.2
               direction := if rhoPos rp.1 then "increasing" else "decreasing" } }

/-! ### visualize.py — `calculate_gini` -/

/-- visualize.py:48-55 — `calculate_gini`: Gini coefficient of a list of
balances; `0` for an empty or zero-sum list, otherwise
`(n + 1 - 2 * sum(cumsum) / cumsum[-1]) / n` over the sorted balances.
(`getLastD 0` is `cumsum[-1]`; the list is nonempty in that branch.) -/
def calculate_gini (balances : List ℚ) : ℚ :=
  let b := sortAsc balances
  let n := b.length
  if n = 0 ∨ b.sum = 0 then 0
  else (((n : ℚ) + 1) - 2 * (cumsum b).sum / (cumsum b).getLastD 0) / (n : ℚ)

/-! ### Spec-side characterization used by the exclusion property

The claim about `dictator_stats` describes the counted records directly:
right game, right condition key, and an action the extraction accepts.  The
next two definitions follow that description; the theorems below compare them
with the pipeline above. -/

/-- An action string the dictator decode accepts: it passes the
`startswith('give_')` filter and `give_(\d+)` extraction succeeds on it. -/
def giveMatches (a : String) : Bool :=
  strStartsWith a "give_" && (searchExtract "give_".data a.data).isSome

/-- Spec-side description of one dictator group: the records of `df` with
game type `dictator`, the given condition key, and a matching action. -/
def claimGiveGroup (df : List Record) (p k : String) (s : ℚ) : List Record :=
  df.filter (fun r =>
    decide (r.game_type = "dictator" ∧ r.model_provider = p
      ∧ r.knowledge_level = k ∧ r.stake = s) && giveMatches r.action)

/-! ### Concrete data used by the witnesses -/

/-- Ultimatum proposer record: stake 2, action `offer_7`. -/
def rWU : Record := { game_type := "ultimatum", stake := 2, action := "offer_7" }

/-- Dictator record: stake 5, action `give_3`. -/
def rWD : Record := { game_type := "dictator", stake := 5, action := "give_3" }

/-- The spec's boundary example: stake 10, action `offer_5`. -/
def rC2 : Record := { game_type := "ultimatum", stake := 10, action := "offer_5" }

/-- Two stake levels of three prisoners-dilemma decisions each: the
hand-computed Kruskal-Wallis example (H = 5/9, eta squared = -1/9). -/
def dfC3 : List Record :=
  [ { game_type := "prisoners-dilemma", stake := 1, action := "cooperate" }
  , { game_type := "prisoners-dilemma", stake := 1, action := "defect" }
  , { game_type := "prisoners-dilemma", stake := 1, action := "defect" }
  , { game_type := "prisoners-dilemma", stake := 2, action := "cooperate" }
  , { game_type := "prisoners-dilemma", stake := 2, action := "cooperate" }
  , { game_type := "prisoners-dilemma", stake := 2, action := "defect" } ]

/-- The `stake_effect_test` payload on `dfC3`. -/
def srC3 : StakeResult := { h := some (5 / 9), eta_squared := some (-(1 / 9)) }

/-- A single stake level: two prisoners-dilemma decisions at stake 1. -/
def dfW4 : List Record :=
  [ { game_type := "prisoners-dilemma", stake := 1, action := "cooperate" }
  , { game_type := "prisoners-dilemma", stake := 1, action := "defect" } ]

/-- Only `openai` decisions: the `claude` subset is empty. -/
def dfW5 : List Record :=
  [ { game_type := "prisoners-dilemma", model_provider := "openai", action := "cooperate" } ]

/-- Two decisions per provider, every payoff identical: both groups have zero
variance, so the pooled standard deviation is zero. -/
def dfW6 : List Record :=
  [ { game_type := "trust", model_provider := "claude", payoff := 1 }
  , { game_type := "trust", model_provider := "claude", payoff := 1 }
  , { game_type := "trust", model_provider := "openai", payoff := 1 }
  , { game_type := "trust", model_provider := "openai", payoff := 1 } ]

/-- The `model_comparison_test` payload on `dfW6`. -/
def mcW6 : MCResult :=
  { claude_mean := some 1
    openai_mean := some 1
    claude_n := 2
    openai_n := 2
    u_stat := some 2
    cohens_d := DVal.zero }

/-- An iterated prisoners dilemma with exactly 2 distinct rounds. -/
def dfW7 : List Record :=
  [ { game_type := "prisoners-dilemma", total_rounds := 2, round := 1, action := "cooperate" }
  , { game_type := "prisoners-dilemma", total_rounds := 2, round := 2, action := "defect" } ]

/-- A dictator frame with one matching and two non-matching actions in the
same condition group. -/
def dfW8 : List Record :=
  [ { game_type := "dictator", model_provider := "claude", knowledge_level := "full",
      stake := 1, action := "give_4" }
  , { game_type := "dictator", model_provider := "claude", knowledge_level := "full",
      stake := 1, action := "keep_all" }
  , { game_type := "dictator", model_provider := "claude", knowledge_level := "full",
      stake := 1, action := "give_x" } ]

/-- The single `dictator_stats` row of `dfW8`: only `give_4` is counted. -/
def rowW8 : DGRow :=
  { model_provider := "claude"
    knowledge_level := "full"
    stake := 1
    mean_giving_pct := some (2 / 5)
    median_giving_pct := some (2 / 5)
    n := 1 }

/-- A trust-game frame for the payoff-comparison property. -/
def dfW9 : List Record :=
  [ { game_type := "trust", model_provider := "claude", stake := 1,
      action := "invest_5", payoff := 3 }
  , { game_type := "ultimatum", model_provider := "claude", stake := 1,
      action := "offer_5", payoff := 9 } ]

/-! ### Helper lemmas -/

theorem length_insertAsc {α : Type} [LinearOrder α] (x : α) (l : List α) :
    (insertAsc x l).length = l.length + 1 := by
  induction l with
  | nil => rfl
  | cons y ys ih =>
    by_cases h : x ≤ y <;> simp [insertAsc, h, ih]

theorem length_sortAsc {α : Type} [LinearOrder α] (l : List α) :
    (sortAsc l).length = l.length := by
  induction l with
  | nil => rfl
  | cons x xs ih => simp [sortAsc, length_insertAsc, ih]

theorem sum_insertAsc (x : ℚ) (l : List ℚ) :
    (insertAsc x l).sum = x + l.sum := by
  induction l with
  | nil => simp [insertAsc]
  | cons y ys ih =>
    by_cases h : x ≤ y
    · simp [insertAsc, h]
    · simp [insertAsc, h, ih]; ring

theorem sum_sortAsc (l : List ℚ) : (sortAsc l).sum = l.sum := by
  induction l with
  | nil => rfl
  | cons x xs ih => simp [sortAsc, sum_insertAsc, ih]

theorem cumsum_getLastD (l : List ℚ) (hne : l ≠ []) :
    (cumsum l).getLastD 0 = l.sum := by
  obtain ⟨n, hn⟩ : ∃ n, l.length = n + 1 := by
    cases h : l.length with
    | zero => exact absurd (List.length_eq_zero.mp h) hne
    | succ n => exact ⟨n, rfl⟩
  unfold cumsum
  rw [hn, List.range_succ, List.map_append]
  simp only [List.map_cons, List.map_nil, List.getLastD_concat]
  rw [← hn, List.take_length]

theorem searchExtract_exact (pat ds : List Char) (hne : ds ≠ [])
    (hdig : ∀ c ∈ ds, c.isDigit = true) :
    searchExtract pat (pat ++ ds) = some (natOfDigits ds) := by
  obtain ⟨c, rest, hcr⟩ : ∃ c rest, pat ++ ds = c :: rest := by
    cases hpd : pat ++ ds with
    | nil =>
      cases ds with
      | nil => exact absurd rfl hne
      | cons a l => simp at hpd
    | cons c rest => exact ⟨c, rest, rfl⟩
  have hpre : pat.isPrefixOf (c :: rest) = true := by
    rw [← hcr, List.isPrefixOf_iff_prefix]
    exact List.prefix_append pat ds
  have hdrop : (c :: rest).drop pat.length = ds := by
    rw [← hcr, List.drop_left]
  have htake : (((c :: rest).drop pat.length).takeWhile Char.isDigit) = ds := by
    rw [hdrop, List.takeWhile_eq_self_iff.mpr hdig]
  have hemp : (((c :: rest).drop pat.length).takeWhile Char.isDigit).isEmpty = false := by
    rw [htake]
    cases ds with
    | nil => exact absurd rfl hne
    | cons a l => rfl
  rw [hcr, searchExtract, hpre, hemp, htake]
  simp

theorem length_filterMap_eq_length_filter {α β : Type} (f : α → Option β) (l : List α) :
    (l.filterMap f).length = (l.filter (fun a => (f a).isSome)).length := by
  induction l with
  | nil => rfl
  | cons a t ih =>
    cases h : f a <;> simp [List.filterMap_cons, h, List.filter_cons, ih]

theorem filterMap_length_of_isSome {α β : Type} (f : α → Option β) :
    ∀ l : List α, (∀ a ∈ l, (f a).isSome = true) → (l.filterMap f).length = l.length := by
  intro l
  induction l with
  | nil => intro _; rfl
  | cons a t ih =>
    intro h
    cases hfa : f a with
    | none => exact absurd (h a (List.mem_cons_self a t)) (by simp [hfa])
    | some b =>
      rw [List.filterMap_cons, hfa]
      simp only [List.length_cons]
      rw [ih (fun x hx => h x (List.mem_cons_of_mem a hx))]

/-! ### The claims -/

/-- C1: for every ultimatum record whose action is `offer_` followed by a
digit run of value N, and every dictator record whose action is `give_`
followed by a digit run of value N, with positive stake s the decoded
normalized value (`offer_pct` resp. `giving_pct`) is exactly N / (10 * s),
and the record passes the corresponding row filter. -/
theorem offer_and_giving_pct_formula :
    (∀ (r : Record) (ds : List Char) (N : ℕ),
        r.game_type = "ultimatum" → r.action.data = "offer_".data ++ ds → ds ≠ [] →
        (∀ c ∈ ds, c.isDigit = true) → natOfDigits ds = N → 0 < r.stake →
        isProposerAction r.action = true ∧ offer_pct r = some ((N : ℚ) / (10 * r.stake)))
  ∧ (∀ (r : Record) (ds : List Char) (N : ℕ),
        r.game_type = "dictator" → r.action.data = "give_".data ++ ds → ds ≠ [] →
        (∀ c ∈ ds, c.isDigit = true) → natOfDigits ds = N → 0 < r.stake →
        strStartsWith r.action "give_" = true
          ∧ giving_pct r = some ((N : ℚ) / (10 * r.stake))) := by
  constructor
  · intro r ds N hgt hact hne hdig hN hs
    constructor
    · unfold isProposerAction strStartsWith
      rw [hact, List.isPrefixOf_iff_prefix]
      exact List.prefix_append _ _
    · unfold offer_pct
      rw [hact, searchExtract_exact _ ds hne hdig, hN]
      rfl
  · intro r ds N hgt hact hne hdig hN hs
    constructor
    · unfold strStartsWith
      rw [hact, List.isPrefixOf_iff_prefix]
      exact List.prefix_append _ _
    · unfold giving_pct
      rw [hact, searchExtract_exact _ ds hne hdig, hN]
      rfl

/-- C1 witness: stake 2 with `offer_7` decodes to 7/20; stake 5 with
`give_3` decodes to 3/50. -/
theorem offer_and_giving_pct_formula_witness :
    (isProposerAction rWU.action = true ∧ offer_pct rWU = some ((7 : ℚ) / (10 * rWU.stake)))
  ∧ (strStartsWith rWD.action "give_" = true
      ∧ giving_pct rWD = some ((3 : ℚ) / (10 * rWD.stake))) :=
  ⟨offer_and_giving_pct_formula.1 rWU ['7'] 7 rfl (by decide) (by decide) (by decide) rfl
      (by norm_num [rWU]),
   offer_and_giving_pct_formula.2 rWD ['3'] 3 rfl (by decide) (by decide) (by decide) rfl
      (by norm_num [rWD])⟩

/-- C2 counterexample: with stake 10 and action `offer_5` the decoder yields
`offer_pct = 5 / (10 * 10) = 1/20 = 0.05`, not 0.5. -/
theorem offer5_stake10_not_half :
    offer_pct rC2 = some ((1 : ℚ) / 20) ∧ offer_pct rC2 ≠ some ((1 : ℚ) / 2) := by
  have h : offer_pct rC2 = some ((1 : ℚ) / 20) := by
    norm_num +decide [offer_pct, rC2, searchExtract, List.isPrefixOf, List.takeWhile,
      Char.isDigit, show natOfDigits ['5'] = 5 from rfl]
  refine ⟨h, ?_⟩
  rw [h]
  intro hc
  rw [Option.some_inj] at hc
  norm_num at hc

/-- C2 amended: with stake 10 and action `offer_5` the decoded
`offer_pct` is 0.05 exactly (the spec's claimed value 0.5 obtains at
stake 1, not stake 10). -/
theorem offer5_stake10_pct_exact : offer_pct rC2 = some ((1 : ℚ) / 20) := by
  norm_num +decide [offer_pct, rC2, searchExtract, List.isPrefixOf, List.takeWhile,
    Char.isDigit, show natOfDigits ['5'] = 5 from rfl]

/-- C3: whenever `stake_effect_test` actually runs its Kruskal-Wallis test
and reports a finite statistic H over k groups and N total observations with
N different from k, the reported effect size is exactly (H - k + 1) / (N - k)
(for k = 2 this is (H - 1) / (N - 2)). -/
theorem eta_squared_formula (df : List Record) (gt : String) (res : StakeResult) (hq : ℚ)
    (hok : stake_effect_test df gt = TestOutcome.ok res) (hh : res.h = some hq)
    (hkN : ((stakeGroupVals df gt).map List.length).sum ≠ (stakeGroupVals df gt).length) :
    res.eta_squared = some
      ((hq - ((stakeGroupVals df gt).length : ℚ) + 1) /
        ((((stakeGroupVals df gt).map List.length).sum : ℚ)
          - ((stakeGroupVals df gt).length : ℚ))) := by
  simp only [stake_effect_test] at hok
  split at hok
  · split at hok
    · exact absurd hok (by simp)
    · split at hok
      · simp only [TestOutcome.ok.injEq] at hok
        rw [← hok] at hh
        simp at hh
      · split at hok
        · exact absurd hok (by simp)
        · simp only [TestOutcome.ok.injEq] at hok
          rw [← hok] at hh ⊢
          simp only [Option.some_inj] at hh
          subst hh
          have hcond : (((stakeGroupVals df gt).map List.length).sum : ℚ)
              - ((stakeGroupVals df gt).length : ℚ) ≠ 0 := by
            intro hc
            rw [sub_eq_zero] at hc
            exact hkN (Nat.cast_injective hc)
          simp only [if_neg hcond]
  · exact absurd hok (by simp)

/-- C3 witness: on two stake groups of three prisoners-dilemma decisions
each (k = 2, N = 6), the test reports H = 5/9 and eta squared
-1/9 = (5/9 - 2 + 1) / (6 - 2). -/
theorem eta_squared_formula_witness :
    stake_effect_test dfC3 "prisoners-dilemma" = TestOutcome.ok srC3
  ∧ srC3.eta_squared = some
      ((5 / 9 - ((stakeGroupVals dfC3 "prisoners-dilemma").length : ℚ) + 1) /
        ((((stakeGroupVals dfC3 "prisoners-dilemma").map List.length).sum : ℚ)
          - ((stakeGroupVals dfC3 "prisoners-dilemma").length : ℚ))) := by
  have hok : stake_effect_test dfC3 "prisoners-dilemma" = TestOutcome.ok srC3 := by
    norm_num +decide [stake_effect_test, stakeGroupVals, stakeLevels, seRecords, outcomeSE, dfC3,
      sortAsc, insertAsc, List.dedup, List.insert, allSomeGroups, allSome,
      kruskalStat, rankOf, srC3]
  refine ⟨hok, eta_squared_formula dfC3 "prisoners-dilemma" srC3 (5 / 9) hok rfl ?_⟩
  norm_num +decide [stakeGroupVals, stakeLevels, seRecords, outcomeSE, dfC3,
    sortAsc, insertAsc, List.dedup, List.insert]

/-- C4: on a supported game type with fewer than 2 distinct stake levels,
`stake_effect_test` returns the structured error result
`Need at least 2 stake levels` (not an exception, and no statistic,
p-value, or effect size is produced). -/
theorem stake_levels_insufficient (df : List Record) (gt : String)
    (hsup : gt = "prisoners-dilemma" ∨ gt = "public-goods" ∨ gt = "dictator")
    (hlt : (stakeGroupVals df gt).length < 2) :
    stake_effect_test df gt = TestOutcome.errorResult "Need at least 2 stake levels" := by
  simp only [stake_effect_test]
  rw [if_pos hsup, if_pos hlt]

/-- C4 witness: two prisoners-dilemma decisions at a single stake level. -/
theorem stake_levels_insufficient_witness :
    stake_effect_test dfW4 "prisoners-dilemma"
      = TestOutcome.errorResult "Need at least 2 stake levels" :=
  stake_levels_insufficient dfW4 "prisoners-dilemma" (Or.inl rfl)
    (by norm_num +decide [stakeGroupVals, stakeLevels, seRecords, dfW4,
      sortAsc, insertAsc, List.dedup, List.insert])

/-- C5: whenever the claude subset or the openai subset of the selected game
type is empty, `model_comparison_test` returns the structured error result
`Need data from both models` (no U statistic is computed, nothing is raised). -/
theorem model_comparison_needs_both (df : List Record) (gt : String)
    (h : df.filter (fun r => r.game_type = gt ∧ r.model_provider = "claude") = []
       ∨ df.filter (fun r => r.game_type = gt ∧ r.model_provider = "openai") = []) :
    model_comparison_test df gt = TestOutcome.errorResult "Need data from both models" := by
  have key : ∀ prov : String,
      df.filter (fun r => r.game_type = gt ∧ r.model_provider = prov) = [] →
      providerVals df gt prov = [] := by
    intro prov hp
    rw [List.filter_eq_nil_iff] at hp
    unfold providerVals mcRecords
    rw [List.map_eq_nil_iff, List.filter_eq_nil_iff]
    intro a ha
    simp only [decide_eq_true_eq]
    intro hprov
    by_cases hd : gt = "dictator"
    · rw [if_pos hd] at ha
      rw [List.mem_filter, List.mem_filter] at ha
      have hmem := ha.1.1
      have hgame := of_decide_eq_true ha.1.2
      exact (hp a hmem) (by simp [hgame, hprov])
    · rw [if_neg hd] at ha
      rw [List.mem_filter] at ha
      have hgame := of_decide_eq_true ha.2
      exact (hp a ha.1) (by simp [hgame, hprov])
  rcases h with hc | ho
  · have hc' := key "claude" hc
    simp [model_comparison_test, hc']
  · have ho' := key "openai" ho
    simp [model_comparison_test, ho']

/-- C5 witness: a frame with only openai decisions is rejected with the
`Need data from both models` error result. -/
theorem model_comparison_needs_both_witness :
    model_comparison_test dfW5 "prisoners-dilemma"
      = TestOutcome.errorResult "Need data from both models" :=
  model_comparison_needs_both dfW5 "prisoners-dilemma" (Or.inl (by decide))

/-- C6: whenever `model_comparison_test` succeeds and the pooled standard
deviation is zero (pooled variance `some 0`, in particular both groups of
constant values), the reported Cohen's d is the literal 0 of the degenerate
branch — not NaN and not a division error. -/
theorem cohens_d_zero_when_pooled_zero (df : List Record) (gt : String) (res : MCResult)
    (hok : model_comparison_test df gt = TestOutcome.ok res)
    (hpv : pooled_var df gt = some 0) :
    res.cohens_d = DVal.zero := by
  simp only [model_comparison_test] at hok
  split at hok
  · exact absurd hok (by simp)
  · simp only [TestOutcome.ok.injEq] at hok
    rw [← hok]
    simp only [hpv]
    norm_num

/-- C6 witness: two constant-payoff groups give pooled variance 0 and
a reported Cohen's d of 0. -/
theorem cohens_d_zero_when_pooled_zero_witness :
    model_comparison_test dfW6 "trust" = TestOutcome.ok mcW6
  ∧ mcW6.cohens_d = DVal.zero := by
  have hok : model_comparison_test dfW6 "trust" = TestOutcome.ok mcW6 := by
    norm_num +decide [model_comparison_test, providerVals, mcRecords, outcomeMC, dfW6,
      pooled_var, sampleVar, qmean, meanOpt, mannWhitneyU, allSome, rankOf,
      List.filterMap, mcW6]
  refine ⟨hok, cohens_d_zero_when_pooled_zero dfW6 "trust" mcW6 hok ?_⟩
  norm_num +decide [pooled_var, providerVals, mcRecords, outcomeMC, dfW6, sampleVar, qmean,
    List.filterMap]

/-- C9 (implicit): for every game type other than `prisoners-dilemma` and
`dictator`, the outcome series `model_comparison_test` compares is the raw
`payoff` column of the filtered records, not a decoded action value. -/
theorem model_comparison_other_games_use_payoff (df : List Record) (gt prov : String)
    (h1 : gt ≠ "prisoners-dilemma") (h2 : gt ≠ "dictator") :
    providerVals df gt prov =
      (df.filter (fun r => r.game_type = gt ∧ r.model_provider = prov)).map
        (fun r => some r.payoff) := by
  unfold providerVals mcRecords
  rw [if_neg h2, List.filter_filter]
  have hout : ∀ r : Record, outcomeMC gt r = some r.payoff := by
    intro r
    unfold outcomeMC
    rw [if_neg h1, if_neg h2]
  have hpred : (fun r : Record => decide (r.model_provider = prov)
      && decide (r.game_type = gt))
      = fun r : Record => decide (r.game_type = gt ∧ r.model_provider = prov) := by
    funext r
    by_cases ha : r.game_type = gt <;> by_cases hb : r.model_provider = prov <;>
      simp [ha, hb]
  rw [hpred]
  rw [List.map_congr_left (fun r _ => hout r)]

/-- C9 witness: on a trust-game frame the compared outcome list is exactly
the payoff column. -/
theorem model_comparison_other_games_use_payoff_witness :
    providerVals dfW9 "trust" "claude" =
      (dfW9.filter (fun r => r.game_type = "trust" ∧ r.model_provider = "claude")).map
        (fun r => some r.payoff) :=
  model_comparison_other_games_use_payoff dfW9 "trust" "claude"
    (by decide) (by decide)

/-- C7: with fewer than 3 distinct round numbers in the iterated
prisoners-dilemma subset, `learning_analysis` reports the exact sentinel
trend rho = 0, p = 1, direction `decreasing`; with 3 or more distinct rounds
it reports the computed Spearman correlation of round number against
per-round cooperation rate (whose p-value is external library output). -/
theorem learning_trend_sentinel (df : List Record) :
    ((roundRates df).length ≤ 2 →
      (learning_analysis df).trend =
        { rho := RhoVal.q 0, p := some 1, direction := "decreasing" })
  ∧ (2 < (roundRates df).length →
      (learning_analysis df).trend.rho =
        spearmanRho ((roundRates df).map (fun t => (t.round : ℚ)))
          ((roundRates df).map (fun t => t.cooperation_rate))
      ∧ (learning_analysis df).trend.p = none) := by
  constructor
  · intro hle
    have hnot : ¬ 2 < (roundRates df).length := by omega
    simp only [learning_analysis, if_neg hnot]
    have hdir : rhoPos (RhoVal.q 0) = false := by
      simp [rhoPos]
    simp [hdir]
  · intro hgt
    simp [learning_analysis, if_pos hgt]

/-- C7 witness: with exactly 2 distinct rounds the sentinel pair
rho = 0, p = 1 with direction `decreasing` is produced. -/
theorem learning_trend_sentinel_witness :
    (learning_analysis dfW7).trend =
      { rho := RhoVal.q 0, p := some 1, direction := "decreasing" } :=
  (learning_trend_sentinel dfW7).1
    (by norm_num +decide [roundRates, pdIterated, dfW7, sortAsc, insertAsc,
      List.dedup, List.insert])

/-- C10 (implicit): `calculate_gini` returns 0 on every zero-sum balance
list (the empty list included), so the division is guarded; on every other
list it returns (n + 1 - 2 * sum(cumsum) / cumsum[-1]) / n over the sorted
balances, and the divisor cumsum[-1] equals the (nonzero) total sum. -/
theorem gini_zero_sum_guard (bs : List ℚ) :
    (bs.sum = 0 → calculate_gini bs = 0)
  ∧ (bs.sum ≠ 0 →
      (cumsum (sortAsc bs)).getLastD 0 = bs.sum
      ∧ calculate_gini bs =
          (((bs.length : ℚ) + 1) - 2 * (cumsum (sortAsc bs)).sum / bs.sum)
            / (bs.length : ℚ)) := by
  constructor
  · intro h0
    simp only [calculate_gini]
    rw [if_pos (Or.inr (by rw [sum_sortAsc]; exact h0))]
  · intro hne
    have hbne : bs ≠ [] := by
      intro h
      subst h
      exact hne rfl
    have hsne : sortAsc bs ≠ [] := by
      intro h
      apply hbne
      have hl := length_sortAsc bs
      rw [h] at hl
      exact List.length_eq_zero.mp hl.symm
    have hlast : (cumsum (sortAsc bs)).getLastD 0 = bs.sum := by
      rw [cumsum_getLastD _ hsne, sum_sortAsc]
    refine ⟨hlast, ?_⟩
    simp only [calculate_gini]
    rw [if_neg ?_]
    · rw [hlast, length_sortAsc]
    · push_neg
      constructor
      · intro h
        exact hsne (List.length_eq_zero.mp h)
      · rw [sum_sortAsc]
        exact hne

/-- C10 witness: a zero-sum list maps to 0; for balances 1 and 3 the divisor
is the total 4 and the Gini value is (2 + 1 - 2 * 5 / 4) / 2. -/
theorem gini_zero_sum_guard_witness :
    calculate_gini [2, -2] = 0
  ∧ ((cumsum (sortAsc [(1 : ℚ), 3])).getLastD 0 = [(1 : ℚ), 3].sum
      ∧ calculate_gini [1, 3] =
          ((([(1 : ℚ), 3].length : ℚ) + 1)
              - 2 * (cumsum (sortAsc [(1 : ℚ), 3])).sum / [(1 : ℚ), 3].sum)
            / ([(1 : ℚ), 3].length : ℚ)) :=
  ⟨(gini_zero_sum_guard [2, -2]).1 (by norm_num),
   (gini_zero_sum_guard [1, 3]).2 (by norm_num)⟩

theorem dictator_group_vals_eq (df : List Record) (key : String × String × ℚ) :
    ((dictatorRecords df).filter (fun r => keyOf r = key)).filterMap giving_pct
      = (claimGiveGroup df key.1 key.2.1 key.2.2).filterMap giving_pct := by
  unfold dictatorRecords claimGiveGroup
  rw [List.filter_filter, List.filter_filter]
  rw [List.filterMap_filter, List.filterMap_filter]
  congr 1
  funext r
  by_cases hg : r.game_type = "dictator" <;>
  by_cases hm : r.model_provider = key.1 <;>
  by_cases hn : r.knowledge_level = key.2.1 <;>
  by_cases hs : r.stake = key.2.2 <;>
  cases hsw : strStartsWith r.action "give_" <;>
  cases hse : searchExtract "give_".data r.action.data <;>
  simp [hg, hm, hn, hs, hsw, hse, giveMatches, giving_pct, keyOf, Prod.ext_iff]

/-- C8: every row of `dictator_stats` reports as its group size `n` the
number of that group's records whose action matches `give_<integer>`, and its
mean and median are aggregates of exactly those records' `giving_pct` values:
non-matching dictator actions are excluded and contribute to no group. -/
theorem dictator_excludes_nonmatching (df : List Record) (row : DGRow)
    (hrow : row ∈ dictator_stats df) :
    row.n = (claimGiveGroup df row.model_provider row.knowledge_level row.stake).length
  ∧ row.mean_giving_pct = meanOpt
      ((claimGiveGroup df row.model_provider row.knowledge_level row.stake).filterMap giving_pct)
  ∧ row.median_giving_pct = medianOpt
      ((claimGiveGroup df row.model_provider row.knowledge_level row.stake).filterMap
        giving_pct) := by
  unfold dictator_stats at hrow
  rw [List.mem_map] at hrow
  obtain ⟨key, hkmem, hbuild⟩ := hrow
  subst hbuild
  have hvals := dictator_group_vals_eq df key
  refine ⟨?_, ?_, ?_⟩
  · show (((dictatorRecords df).filter (fun r => keyOf r = key)).filterMap giving_pct).length
        = (claimGiveGroup df key.1 key.2.1 key.2.2).length
    rw [hvals]
    apply filterMap_length_of_isSome
    intro a ha
    unfold claimGiveGroup at ha
    rw [List.mem_filter] at ha
    have hcond := ha.2
    simp only [Bool.and_eq_true, giveMatches] at hcond
    have hsome : (searchExtract "give_".data a.action.data).isSome = true := hcond.2.2
    obtain ⟨v, hv⟩ := Option.isSome_iff_exists.mp hsome
    unfold giving_pct
    rw [hv]
    rfl
  · show meanOpt (((dictatorRecords df).filter (fun r => keyOf r = key)).filterMap giving_pct)
        = meanOpt ((claimGiveGroup df key.1 key.2.1 key.2.2).filterMap giving_pct)
    rw [hvals]
  · show medianOpt (((dictatorRecords df).filter (fun r => keyOf r = key)).filterMap giving_pct)
        = medianOpt ((claimGiveGroup df key.1 key.2.1 key.2.2).filterMap giving_pct)
    rw [hvals]

/-- C8 witness: in a group with actions `give_4`, `keep_all`, `give_x`, only
`give_4` is counted: the reported row has n = 1 and mean and median 4/10,
and these agree with the aggregates over the matching records. -/
theorem dictator_excludes_nonmatching_witness :
    rowW8 ∈ dictator_stats dfW8
  ∧ (rowW8.n = (claimGiveGroup dfW8 rowW8.model_provider rowW8.knowledge_level
        rowW8.stake).length
     ∧ rowW8.mean_giving_pct = meanOpt
        ((claimGiveGroup dfW8 rowW8.model_provider rowW8.knowledge_level
          rowW8.stake).filterMap giving_pct)
     ∧ rowW8.median_giving_pct = medianOpt
        ((claimGiveGroup dfW8 rowW8.model_provider rowW8.knowledge_level
          rowW8.stake).filterMap giving_pct)) := by
  have hmem : rowW8 ∈ dictator_stats dfW8 := by
    have heq : dictator_stats dfW8 = [rowW8] := by
      norm_num +decide [dictator_stats, dictatorKeys, dictatorRecords, keyOf, dfW8,
        strStartsWith, List.isPrefixOf, List.dedup, List.insert, giving_pct, searchExtract,
        List.takeWhile, Char.isDigit, List.filterMap, meanOpt, medianOpt, qmean,
        sortAsc, insertAsc, rowW8, show natOfDigits ['4'] = 4 from rfl]
    rw [heq]
    exact List.mem_singleton.mpr rfl
  exact ⟨hmem, dictator_excludes_nonmatching dfW8 rowW8 hmem⟩
